import Mathlib

/-!
Expresso Itaporanga front end: validation, phone mask, API client, form workflow.

A shallow embedding of `src/frontend/static/js/main.js` and
`src/frontend/static/js/api.js`.

* JavaScript strings are sequences of characters (`List Char`).  Every
  character the regular expressions of the source name explicitly (digits,
  white space, `@`, `(`, `)`, `-`, `.`) lies in the Basic Multilingual Plane, so
  matching per Unicode scalar and matching per UTF-16 code unit agree.
* Regular-expression literals are data (`RegExp`); `matchAtoms` is the greedy
  backtracking matcher, `RegExp.exec` the left-to-right search for the first
  match, `replaceFirst` is `String.prototype.replace` with a non-global
  pattern.
* DOM nodes are records of exactly the properties the handlers read or write.
* A promise chain is the sequence of its callbacks, applied to the outcome the
  network produced.
-/

namespace ExpressoItaporanga

/-! ## Regular expressions -/

/-- Code points matched by `\s` (and stripped by `String.prototype.trim`):
the ECMAScript WhiteSpace and LineTerminator productions. -/
def isSpace (c : Char) : Bool :=
  let n := c.toNat
  n == 0x09 || n == 0x0A || n == 0x0B || n == 0x0C || n == 0x0D || n == 0x20 ||
  n == 0xA0 || n == 0x1680 || (0x2000 ≤ n && n ≤ 0x200A) ||
  n == 0x2028 || n == 0x2029 || n == 0x202F || n == 0x205F || n == 0x3000 || n == 0xFEFF

/-- Characters matched by `\d`: the ASCII digits `0`..`9`. -/
def isDigit (c : Char) : Bool :=
  let n := c.toNat
  0x30 ≤ n && n ≤ 0x39

/-- The character classes occurring in the source's regular expressions (and
`\S`, which only the specification uses). -/
inductive CharClass where
  | digit                 -- `\d`
  | nonDigit              -- `\D`
  | space                 -- `\s`
  | nonSpace              -- `\S`
  | notSpaceAt            -- `[^\s@]`
  | lit (c : Char)        -- a literal character such as `\(` or `-`

/-- Does the class accept the character? -/
def CharClass.test : CharClass → Char → Bool
  | .digit, c => isDigit c
  | .nonDigit, c => !isDigit c
  | .space, c => isSpace c
  | .nonSpace, c => !isSpace c
  | .notSpaceAt, c => !(isSpace c || c == '@')
  | .lit d, c => c == d

/-- One quantified character class: `cls{min,max}` (`max = none` is unbounded,
as in `+`); `capture` says whether it is wrapped in a capturing group. -/
structure Atom where
  cls : CharClass
  min : Nat
  max : Option Nat
  capture : Bool

/-- A regular-expression literal: a sequence of quantified classes, optionally
anchored with `^` and `$`. -/
structure RegExp where
  anchorStart : Bool
  atoms : List Atom
  anchorEnd : Bool

/-- Length of the longest prefix of `s` whose characters all satisfy `p`. -/
def runLength (p : Char → Bool) : List Char → Nat
  | [] => 0
  | c :: cs => if p c then runLength p cs + 1 else 0

/-- The repetition counts a greedy quantifier tries, largest first:
`hi, hi - 1, ..., lo`. -/
def countsDown (hi lo : Nat) : List Nat :=
  ((List.range (hi + 1 - lo)).map (· + lo)).reverse

/-- Greedy backtracking match of a sequence of atoms at the start of `s`.
Returns the texts of the capturing groups and the unconsumed rest of `s`. -/
def matchAtoms : List Atom → Bool → List Char → Option (List (List Char) × List Char)
  | [], anchorEnd, s => if anchorEnd && !s.isEmpty then none else some ([], s)
  | a :: rest, anchorEnd, s =>
    let hi := Nat.min (a.max.getD s.length) (runLength a.cls.test s)
    (countsDown hi a.min).findSome? fun k =>
      (matchAtoms rest anchorEnd (s.drop k)).map fun r =>
        (if a.capture then s.take k :: r.1 else r.1, r.2)

/-- The least number of characters a sequence of atoms consumes. -/
def minLength (atoms : List Atom) : Nat :=
  (atoms.map (·.min)).sum

/-- Search for the first match: `RegExp.prototype.exec` on a fresh, non-global
pattern.  Returns the start index, the captures and the text after the match. -/
def RegExp.exec (re : RegExp) (s : List Char) : Option (Nat × List (List Char) × List Char) :=
  let starts := if re.anchorStart then [0] else List.range (s.length + 1)
  starts.findSome? fun i =>
    (matchAtoms re.atoms re.anchorEnd (s.drop i)).map fun r => (i, r.1, r.2)

/-- The method `RegExp.prototype.test`. -/
def RegExp.test (re : RegExp) (s : List Char) : Bool :=
  (re.exec s).isSome

/-- An item of a replacement template: a literal character or `$n`. -/
inductive TplItem where
  | chr (c : Char)
  | group (n : Nat)

/-- Expansion of a replacement template with the captured groups. -/
def expandTemplate (tpl : List TplItem) (caps : List (List Char)) : List Char :=
  (tpl.map fun
    | .chr c => [c]
    | .group n => caps.getD (n - 1) []).flatten

/-- The call `s.replace(re, tpl)` for a non-global `re`: only the first match is
replaced; without a match the string is returned unchanged. -/
def replaceFirst (re : RegExp) (tpl : List TplItem) (s : List Char) : List Char :=
  match re.exec s with
  | none => s
  | some (i, caps, rest) => s.take i ++ expandTemplate tpl caps ++ rest

/-- The call `s.replace(/C/g, repl)` for a pattern that is one character class:
every character of the class is replaced, all others are kept. -/
def replaceAllClass (cls : CharClass) (repl : List Char) (s : List Char) : List Char :=
  (s.map fun c => if cls.test c then repl else [c]).flatten

/-- The call `String.prototype.trim`. -/
def trim (s : List Char) : List Char :=
  ((s.dropWhile isSpace).reverse.dropWhile isSpace).reverse

/-! ## main.js: validators and the phone mask -/

/-- The literal `/^[^\s@]+@[^\s@]+\.[^\s@]+$/` (main.js line 146). -/
def emailRegex : RegExp :=
  { anchorStart := true
    atoms := [⟨.notSpaceAt, 1, none, false⟩, ⟨.lit '@', 1, some 1, false⟩,
              ⟨.notSpaceAt, 1, none, false⟩, ⟨.lit '.', 1, some 1, false⟩,
              ⟨.notSpaceAt, 1, none, false⟩]
    anchorEnd := true }

/-- The function `isValidEmail` (main.js lines 145-148). -/
def isValidEmail (email : List Char) : Bool :=
  emailRegex.test email

/-- The literal `/^\(\d{2}\)\s\d{4,5}-\d{4}$/` (main.js line 152). -/
def phoneRegex : RegExp :=
  { anchorStart := true
    atoms := [⟨.lit '(', 1, some 1, false⟩, ⟨.digit, 2, some 2, false⟩,
              ⟨.lit ')', 1, some 1, false⟩, ⟨.space, 1, some 1, false⟩,
              ⟨.digit, 4, some 5, false⟩, ⟨.lit '-', 1, some 1, false⟩,
              ⟨.digit, 4, some 4, false⟩]
    anchorEnd := true }

/-- The function `isValidPhone` (main.js lines 151-154). -/
def isValidPhone (phone : List Char) : Bool :=
  phoneRegex.test phone

/-- The literal `/(\d{2})(\d{4})(\d{4})/` (main.js line 335). -/
def mask10Regex : RegExp :=
  { anchorStart := false
    atoms := [⟨.digit, 2, some 2, true⟩, ⟨.digit, 4, some 4, true⟩, ⟨.digit, 4, some 4, true⟩]
    anchorEnd := false }

/-- The literal `/(\d{2})(\d{5})(\d{4})/` (main.js line 337). -/
def mask11Regex : RegExp :=
  { anchorStart := false
    atoms := [⟨.digit, 2, some 2, true⟩, ⟨.digit, 5, some 5, true⟩, ⟨.digit, 4, some 4, true⟩]
    anchorEnd := false }

/-- The replacement template `'($1) $2-$3'` (main.js lines 335 and 337). -/
def maskTemplate : List TplItem :=
  [.chr '(', .group 1, .chr ')', .chr ' ', .group 2, .chr '-', .group 3]

/-- The function `formatPhone` (main.js lines 329-341). -/
def formatPhone (phone : List Char) : List Char :=
  let phone := replaceAllClass .nonDigit [] phone
  if phone.length ≤ 10 then
    replaceFirst mask10Regex maskTemplate phone
  else
    replaceFirst mask11Regex maskTemplate phone

/-! ## main.js: field validation on the DOM -/

/-- A form control (`input`, `select` or `textarea`) together with the part of
its container (`field.parentNode`) the validation code touches. -/
structure Field where
  /-- The attribute `name`. -/
  name : String
  /-- The property `field.value`. -/
  value : List Char
  /-- The value `form.reset()` restores. -/
  defaultValue : List Char
  /-- The property `field.type`. -/
  type : String
  /-- The result of `field.hasAttribute('required')`. -/
  required : Bool
  /-- The tokens of `field.classList`. -/
  classList : List String
  /-- The attribute `aria-invalid`, when present. -/
  ariaInvalid : Option String
  /-- Texts of the `.error-message` elements below `field.parentNode`, in tree
  order (the order `querySelector` searches and `appendChild` extends). -/
  errorMessages : List String

/-- The message of the required-field rule (main.js line 50). -/
def requiredMessage : String := "Este campo é obrigatório."

/-- The message of the email rule (main.js line 58). -/
def emailMessage : String := "Por favor, insira um email válido."

/-- The message of the telephone rule (main.js line 65). -/
def phoneMessage : String := "Por favor, insira um telefone válido."

/-- The call `classList.add(token)`. -/
def classListAdd (cl : List String) (token : String) : List String :=
  if cl.contains token then cl else cl ++ [token]

/-- The call `classList.remove(token)`. -/
def classListRemove (cl : List String) (token : String) : List String :=
  cl.filter (· != token)

/-- The function `clearFieldError` (main.js lines 110-118): the first
`.error-message` found below the parent is removed. -/
def clearFieldError (field : Field) : Field :=
  { field with
    classList := classListRemove field.classList "error"
    ariaInvalid := none
    errorMessages := field.errorMessages.drop 1 }

/-- The function `showFieldError` (main.js lines 89-107): the first existing
`.error-message` is removed, then a new one is appended to the parent. -/
def showFieldError (field : Field) (message : String) : Field :=
  { field with
    classList := classListAdd field.classList "error"
    ariaInvalid := some "true"
    errorMessages := field.errorMessages.drop 1 ++ [message] }

/-- The function `validateField` (main.js lines 40-72): the returned boolean and
the field after the DOM updates. -/
def validateField (field : Field) : Bool × Field :=
  let value := trim field.value
  let fieldType := field.type
  let isRequired := field.required
  let field := clearFieldError field
  if isRequired && value.isEmpty then
    (false, showFieldError field requiredMessage)
  else
    match fieldType with
    | "email" =>
      if !value.isEmpty && !isValidEmail value then
        (false, showFieldError field emailMessage)
      else (true, field)
    | "tel" =>
      if !value.isEmpty && !isValidPhone value then
        (false, showFieldError field phoneMessage)
      else (true, field)
    | _ => (true, field)

/-- A submit button: the properties `disabled` and `textContent`. -/
structure Button where
  disabled : Bool
  textContent : String

/-- A `form` element: its controls in tree order (each inside a container of
its own, the `.form-group` of `setupAriaLabels`), its first
`button[type="submit"]` if any, and its `action` URL. -/
structure Form where
  fields : List Field
  submitButton : Option Button
  action : String

/-- The loop of `validateForm` (main.js lines 79-83) over the controls selected
by `input[required], select[required], textarea[required]`. -/
def validateFields : List Field → Bool → Bool × List Field
  | [], isValid => (isValid, [])
  | f :: fs, isValid =>
    if f.required then
      let r := validateField f
      let rest := validateFields fs (if !r.1 then false else isValid)
      (rest.1, r.2 :: rest.2)
    else
      let rest := validateFields fs isValid
      (rest.1, f :: rest.2)

/-- The function `validateForm` (main.js lines 75-86). -/
def validateForm (form : Form) : Bool × Form :=
  let r := validateFields form.fields true
  (r.1, { form with fields := r.2 })

/-! ## JavaScript values -/

/-- A decoded JSON value (or `undefined`); numbers are the integral ones, the
source does no arithmetic on them. -/
inductive JSValue where
  | undefined
  | null
  | bool (b : Bool)
  | num (n : Int)
  | str (s : String)
  | obj (props : List (String × JSValue))
  | arr (items : List JSValue)

/-- A thrown value or rejection reason. -/
inductive JSError where
  /-- The call `fetch` rejected (transport failure). -/
  | network (reason : String)
  /-- The error `new Error("HTTP error! status: " + status)` of api.js line 38. -/
  | http (status : Nat)
  /-- The body could not be read or parsed. -/
  | body (reason : String)
  /-- A property of `null` or `undefined` was read. -/
  | type (what : String)

/-- Own-property lookup in an object given as its list of entries. -/
def objGet {α : Type} (o : List (String × α)) (k : String) : Option α :=
  match o with
  | [] => none
  | (k', v) :: rest => if k' = k then some v else objGet rest k

/-- Property assignment: an existing key keeps its place and takes the new
value, a new key is added at the end. -/
def objSet {α : Type} (o : List (String × α)) (k : String) (v : α) : List (String × α) :=
  match o with
  | [] => [(k, v)]
  | (k', v') :: rest => if k' = k then (k, v) :: rest else (k', v') :: objSet rest k v

/-- Object spread `{...target, ...src}`: the entries of `src` are assigned to
`target` in order. -/
def objSpread {α : Type} (target src : List (String × α)) : List (String × α) :=
  src.foldl (fun o kv => objSet o kv.1 kv.2) target

/-- Property read `v.k`: throws on `null` and `undefined`, is `undefined` for a
missing key and for the primitives and arrays (whose only own or inherited
properties are not among the keys the source reads). -/
def JSValue.getProp (v : JSValue) (k : String) : Except JSError JSValue :=
  match v with
  | .undefined => .error (.type k)
  | .null => .error (.type k)
  | .obj props => .ok ((objGet props k).getD .undefined)
  | _ => .ok .undefined

/-- The conversion ToBoolean. -/
def JSValue.truthy : JSValue → Bool
  | .undefined => false
  | .null => false
  | .bool b => b
  | .num n => n != 0
  | .str s => s != ""
  | .obj _ => true
  | .arr _ => true

/-! ## api.js: the request client -/

/-- A `FormData` payload: the named controls and their values. -/
abbrev FormData := List (String × List Char)

/-- The `options` argument of `apiRequest` and the configuration passed to
`fetch`: the recognised properties, each possibly absent. -/
structure RequestInit where
  method : Option String
  headers : Option (List (String × String))
  body : Option FormData

/-- One call of `fetch(url, config)`. -/
structure Request where
  url : String
  config : RequestInit

/-- A resolved `fetch` response: the properties and methods `apiRequest` and
`submitContactForm` use. -/
structure Response where
  ok : Bool
  status : Nat
  /-- The result of `response.headers.get('content-type')`. -/
  contentType : Option String
  /-- How `response.json()` settles. -/
  json : Except JSError JSValue
  /-- How `response.text()` settles. -/
  text : Except JSError String

/-- How the promise returned by `fetch` settles. -/
inductive FetchResult where
  | rejected (reason : String)
  | resolved (r : Response)

/-- The constant `API_BASE_URL` (api.js lines 6-8), for the page's host name. -/
def API_BASE_URL (hostname : String) : String :=
  if hostname = "localhost" then "http://localhost:5000"
  else "https://expresso-backend-production.railway.app"

/-- The constant `API_CONFIG` (api.js lines 13-18). -/
def API_CONFIG : RequestInit :=
  { method := none
    headers := some [("Content-Type", "application/json"), ("Accept", "application/json")]
    body := none }

/-- The options `{}`. -/
def emptyOptions : RequestInit :=
  { method := none, headers := none, body := none }

/-- The merged configuration of `apiRequest` (api.js lines 25-32):
`{...API_CONFIG, ...options, headers: {...API_CONFIG.headers, ...options.headers}}`. -/
def mergeConfig (options : RequestInit) : RequestInit :=
  { method := options.method <|> API_CONFIG.method
    body := options.body <|> API_CONFIG.body
    headers := some (objSpread (objSpread [] (API_CONFIG.headers.getD []))
                               (options.headers.getD [])) }

/-- The `fetch` call `apiRequest` makes (api.js lines 24-35). -/
def apiRequestCall (hostname endpoint : String) (options : RequestInit) : Request :=
  { url := API_BASE_URL hostname ++ endpoint, config := mergeConfig options }

/-- The call `s.includes(sub)`. -/
def includes (s sub : String) : Bool :=
  (List.range (s.length + 1)).any fun i => (s.toList.drop i).take sub.length == sub.toList

/-- The step `await fetch(url, config)`: a rejection is thrown. -/
def awaitFetch (result : FetchResult) : Except JSError Response :=
  match result with
  | .rejected reason => throw (.network reason)
  | .resolved response => pure response

/-- The function `apiRequest` (api.js lines 23-51) against a network `fetch`:
`.ok` is the returned body, `.error` the thrown error. -/
def apiRequest (fetch : Request → FetchResult) (hostname endpoint : String)
    (options : RequestInit) : Except JSError JSValue := do
  let request := apiRequestCall hostname endpoint options
  try
    let response ← awaitFetch (fetch request)
    if !response.ok then
      throw (JSError.http response.status)
    let isJson :=
      match response.contentType with
      | some contentType => contentType != "" && includes contentType "application/json"
      | none => false
    if isJson then
      response.json
    else
      JSValue.str <$> response.text
  catch error =>
    throw error

/-- The fallback of `rastrearEntrega` (api.js lines 63-66). -/
def rastrearFallback : JSValue :=
  .obj [("encontrado", .bool false),
        ("erro", .str "Erro ao consultar rastreamento. Tente novamente.")]

/-- The function `rastrearEntrega` (api.js lines 58-68). -/
def rastrearEntrega (fetch : Request → FetchResult) (hostname : String)
    (codigo : String) : Except JSError JSValue := do
  try
    let data ← apiRequest fetch hostname ("/api/rastrear/" ++ codigo) emptyOptions
    return data
  catch _ =>
    return rastrearFallback

/-- The fallback of `enviarContato` (api.js lines 79-82). -/
def contatoFallback : JSValue :=
  .obj [("success", .bool false),
        ("message", .str "Erro ao enviar mensagem. Tente novamente.")]

/-- The options `enviarContato` passes to `apiRequest` (api.js lines 73-76). -/
def contatoOptions (formData : FormData) : RequestInit :=
  { method := some "POST", headers := none, body := some formData }

/-- The function `enviarContato` (api.js lines 71-84). -/
def enviarContato (fetch : Request → FetchResult) (hostname : String)
    (formData : FormData) : Except JSError JSValue := do
  try
    let data ← apiRequest fetch hostname "/contato" (contatoOptions formData)
    return data
  catch _ =>
    return contatoFallback

/-! ## api.js: the tracking form -/

/-- An alert element: its class and the value assigned to `textContent`. -/
structure Banner where
  className : String
  text : JSValue

/-- The page around `#form-rastreamento`. -/
structure TrackingPage where
  /-- The value of `#codigo-rastreamento`. -/
  codigo : List Char
  /-- The `innerHTML` of `#resultado-rastreamento`, when the element exists. -/
  resultado : Option String
  /-- The alerts appended to `document.body`, oldest first. -/
  bodyBanners : List Banner

/-- The markup of api.js lines 174-183; `toStr` is the conversion ToString
applied by the template literal. -/
def foundMarkup (toStr : JSValue → String) (codigo status destinatario cidade data : JSValue) :
    String :=
  "\n                        <div class=\"rastreamento-sucesso\">" ++
  "\n                            <h3>Entrega Encontrada!</h3>" ++
  "\n                            <p><strong>Código:</strong> " ++ toStr codigo ++ "</p>" ++
  "\n                            <p><strong>Status:</strong> " ++ toStr status ++ "</p>" ++
  "\n                            <p><strong>Destinatário:</strong> " ++ toStr destinatario ++ "</p>" ++
  "\n                            <p><strong>Cidade:</strong> " ++ toStr cidade ++ "</p>" ++
  "\n                            <p><strong>Data:</strong> " ++ toStr data ++ "</p>" ++
  "\n                        </div>" ++
  "\n                    "

/-- The markup of api.js lines 185-190. -/
def notFoundMarkup : String :=
  "\n                        <div class=\"rastreamento-erro\">" ++
  "\n                            <h3>Entrega não encontrada</h3>" ++
  "\n                            <p>Verifique o código e tente novamente.</p>" ++
  "\n                        </div>" ++
  "\n                    "

/-- The function `mostrarErro` (api.js lines 104-126) on the list of body alerts. -/
def mostrarErro (mensagem : JSValue) (banners : List Banner) : List Banner :=
  banners ++ [⟨"alert alert-error", mensagem⟩]

/-- The function `mostrarSucesso` (api.js lines 129-151) on the list of body alerts. -/
def mostrarSucesso (mensagem : JSValue) (banners : List Banner) : List Banner :=
  banners ++ [⟨"alert alert-success", mensagem⟩]

/-- The rendering step of the tracking handler (api.js lines 171-192) for the
value `resultado`: the new `innerHTML`, or the `TypeError` of reading
`resultado.encontrado`. -/
def renderTracking (toStr : JSValue → String) (resultado : JSValue) : Except JSError String := do
  let encontrado ← resultado.getProp "encontrado"
  if encontrado.truthy then
    let codigo ← resultado.getProp "codigo"
    let status ← resultado.getProp "status"
    let destinatario ← resultado.getProp "destinatario"
    let cidade ← resultado.getProp "cidade_destino"
    let data ← resultado.getProp "data_criacao"
    pure (foundMarkup toStr codigo status destinatario cidade data)
  else
    pure notFoundMarkup

/-- The submit handler of `#form-rastreamento` (api.js lines 160-193) run to
completion against the network `fetch`; an error thrown on the way ends the
handler and leaves the page as it is. -/
def trackingSubmit (toStr : JSValue → String) (fetch : Request → FetchResult)
    (hostname : String) (page : TrackingPage) : TrackingPage :=
  let codigo := trim page.codigo
  if codigo.isEmpty then
    { page with bodyBanners :=
        mostrarErro (.str "Por favor, digite o código de rastreamento.") page.bodyBanners }
  else
    match rastrearEntrega fetch hostname (String.mk codigo) with
    | .error _ => page
    | .ok resultado =>
      match page.resultado with
      | none => page
      | some _ =>
        match renderTracking toStr resultado with
        | .ok html => { page with resultado := some html }
        | .error _ => page

/-! ## main.js and api.js: the contact form -/

/-- The page around `#contact-form`. -/
structure Page where
  /-- The element `#contact-form`. -/
  form : Form
  /-- The alerts inserted at the top of `main`, newest first. -/
  mainBanners : List Banner
  /-- The alerts appended to `document.body` by api.js, oldest first. -/
  bodyBanners : List Banner
  /-- Index of the form control that has the focus, if one has. -/
  focus : Option Nat
  /-- Whether `window.scrollTo` moved the viewport to the top. -/
  scrolledTop : Bool

/-- A submit event in the course of its dispatch: the page, the flag set by
`preventDefault` and the `fetch` calls made so far. -/
structure SubmitEvent where
  page : Page
  defaultPrevented : Bool
  requests : List Request

/-- The function `showFormError` (main.js lines 121-142); the first element
with class `error` is looked for among the form's controls. -/
def showFormError (message : JSValue) (page : Page) : Page :=
  let firstError := page.form.fields.findIdx? fun f => f.classList.contains "error"
  { page with
    mainBanners := ⟨"alert alert-error", message⟩ :: page.mainBanners
    focus := firstError <|> page.focus }

/-- The function `showSuccessMessage` (main.js lines 377-394). -/
def showSuccessMessage (message : JSValue) (page : Page) : Page :=
  { page with
    mainBanners := ⟨"alert alert-success", message⟩ :: page.mainBanners
    scrolledTop := true }

/-- The call `form.reset()`. -/
def formReset (form : Form) : Form :=
  { form with fields := form.fields.map fun f => { f with value := f.defaultValue } }

/-- The call `new FormData(form)`. -/
def formData (form : Form) : FormData :=
  (form.fields.filter fun f => f.name != "").map fun f => (f.name, f.value)

/-- The submit listener of `initializeFormValidation` (main.js lines 30-35). -/
def formValidationSubmit (e : SubmitEvent) : SubmitEvent :=
  let r := validateForm e.page.form
  let page := { e.page with form := r.2 }
  if !r.1 then
    { e with
      defaultPrevented := true
      page := showFormError (.str "Por favor, corrija os erros antes de enviar.") page }
  else
    { e with page := page }

/-- The synchronous part of `submitContactForm` (main.js lines 344-355): the
button is disabled and relabelled and the request is sent.  Without a submit
button the assignment `submitButton.disabled = true` throws and the listener
ends. -/
def submitContactForm (e : SubmitEvent) : SubmitEvent :=
  let form := e.page.form
  let body := formData form
  match form.submitButton with
  | none => e
  | some _ =>
    { e with
      page := { e.page with
        form := { form with submitButton := some ⟨true, "Enviando..."⟩ } }
      requests := e.requests ++
        [⟨form.action, { method := some "POST", headers := none, body := some body }⟩] }

/-- The submit listener of `initializeContactForm` (main.js lines 319-325). -/
def contactFormSubmit (e : SubmitEvent) : SubmitEvent :=
  let e := { e with defaultPrevented := true }
  let r := validateForm e.page.form
  let e := { e with page := { e.page with form := r.2 } }
  if r.1 then submitContactForm e else e

/-- The synchronous part of the submit listener api.js puts on `#contact-form`
(api.js lines 199-203): `enviarContato` calls `apiRequest`, which calls
`fetch`. -/
def apiContactSubmit (hostname : String) (e : SubmitEvent) : SubmitEvent :=
  { e with
    defaultPrevented := true
    requests := e.requests ++
      [apiRequestCall hostname "/contato" (contatoOptions (formData e.page.form))] }

/-- Dispatch of one submit event on `#contact-form` to the three listeners the
code registers on it, in registration order when main.js is loaded first. -/
def dispatchSubmit (hostname : String) (page : Page) : SubmitEvent :=
  apiContactSubmit hostname
    (contactFormSubmit (formValidationSubmit ⟨page, false, []⟩))

/-- The same dispatch when api.js is loaded first. -/
def dispatchSubmitApiFirst (hostname : String) (page : Page) : SubmitEvent :=
  contactFormSubmit
    (formValidationSubmit (apiContactSubmit hostname ⟨page, false, []⟩))

/-- The callback `data => {...}` of `submitContactForm` (main.js lines 357-364). -/
def contactThen (data : JSValue) (page : Page) : Except JSError Page := do
  let success ← data.getProp "success"
  if success.truthy then
    let page := showSuccessMessage
      (.str "Mensagem enviada com sucesso! Entraremos em contato em breve.") page
    pure { page with form := formReset page.form }
  else
    let message ← data.getProp "message"
    pure (showFormError
      (if message.truthy then message else .str "Erro ao enviar mensagem. Tente novamente.") page)

/-- The callback of `.catch` (main.js lines 365-368). -/
def contactCatch (page : Page) : Page :=
  showFormError (.str "Erro ao enviar mensagem. Verifique sua conexão e tente novamente.") page

/-- The callback of `.finally` (main.js lines 369-373), acting on the button
`submitContactForm` captured. -/
def contactFinally (page : Page) : Page :=
  { page with
    form := { page.form with
      submitButton := page.form.submitButton.map fun b =>
        { b with disabled := false, textContent := "Enviar Mensagem" } } }

/-- The promise chain of `submitContactForm` (main.js lines 352-373) once the
request has settled as `result`. -/
def contactSettle (result : FetchResult) (page : Page) : Page :=
  let chain : Except JSError Page :=
    match result with
    | .rejected reason => .error (.network reason)
    | .resolved response =>
      match response.json with
      | .error err => .error err
      | .ok data => contactThen data page
  let page :=
    match chain with
    | .ok page' => page'
    | .error _ => contactCatch page
  contactFinally page

/-- The requests of a dispatch that use the method POST. -/
def postCount (e : SubmitEvent) : Nat :=
  (e.requests.filter fun r => r.config.method == some "POST").length

/-! ## Shapes named by the specification, and example data -/

/-- The shape `^\S+@\S+\.\S+$` the specification names for email addresses, as
a pattern. -/
def specEmailShape : RegExp :=
  { anchorStart := true
    atoms := [⟨.nonSpace, 1, none, false⟩, ⟨.lit '@', 1, some 1, false⟩,
              ⟨.nonSpace, 1, none, false⟩, ⟨.lit '.', 1, some 1, false⟩,
              ⟨.nonSpace, 1, none, false⟩]
    anchorEnd := true }

/-- The national format the specification names, `(DD) DDDD-DDDD` or
`(DD) DDDDD-DDDD` with one space character (U+0020) after the parenthesis, as
a pattern. -/
def specNationalFormat : RegExp :=
  { anchorStart := true
    atoms := [⟨.lit '(', 1, some 1, false⟩, ⟨.digit, 2, some 2, false⟩,
              ⟨.lit ')', 1, some 1, false⟩, ⟨.lit ' ', 1, some 1, false⟩,
              ⟨.digit, 4, some 5, false⟩, ⟨.lit '-', 1, some 1, false⟩,
              ⟨.digit, 4, some 4, false⟩]
    anchorEnd := true }

/-- The slice `d[i..j)`. -/
def slice (d : List Char) (i j : Nat) : List Char :=
  (d.drop i).take (j - i)

/-- A required text control holding `value`, without error decoration. -/
def textField (name : String) (value : List Char) : Field :=
  { name := name, value := value, defaultValue := [], type := "text", required := true
    classList := [], ariaInvalid := none, errorMessages := [] }

/-- A page whose contact form has one required text control holding `value`
and a submit button labelled `label`. -/
def contactPage (value : List Char) (label : String) : Page :=
  { form := { fields := [textField "nome" value]
              submitButton := some ⟨false, label⟩
              action := "/contato" }
    mainBanners := [], bodyBanners := [], focus := none, scrolledTop := false }

/-- A response with status 200 and a JSON body decoding to `data`. -/
def jsonResponse (data : JSValue) : Response :=
  { ok := true, status := 200, contentType := some "application/json"
    json := .ok data, text := .ok "" }

/-- A tracking page showing `html` in its result area, with `codigo` typed in. -/
def trackingPage (codigo : List Char) (html : String) : TrackingPage :=
  { codigo := codigo, resultado := some html, bodyBanners := [] }

/-! ## Lemmas on the matcher -/

theorem mem_countsDown {hi lo k : Nat} : k ∈ countsDown hi lo ↔ lo ≤ k ∧ k ≤ hi := by
  simp only [countsDown, List.mem_reverse, List.mem_map, List.mem_range]
  constructor
  · rintro ⟨i, hi', rfl⟩
    omega
  · rintro ⟨h1, h2⟩
    exact ⟨k - lo, by omega, by omega⟩

theorem countsDown_self (n : Nat) : countsDown n n = [n] := by
  have h : n + 1 - n = 1 := by omega
  simp [countsDown, h, List.range_succ]

theorem le_runLength_iff (p : Char → Bool) (s : List Char) (k : Nat) :
    k ≤ runLength p s ↔ k ≤ s.length ∧ ∀ c ∈ s.take k, p c = true := by
  induction s generalizing k with
  | nil => simp [runLength]
  | cons x xs ih =>
    cases k with
    | zero => simp
    | succ k =>
      by_cases hx : p x = true
      · simp [runLength, hx, ih k]
      · simp [runLength, hx]

theorem matchAtoms_nil_isSome (e : Bool) (s : List Char) :
    (matchAtoms [] e s).isSome = true ↔ (e = true → s = []) := by
  cases e <;> cases s <;> simp [matchAtoms]

theorem matchAtoms_cons_isSome (a : Atom) (rest : List Atom) (e : Bool) (s : List Char) :
    (matchAtoms (a :: rest) e s).isSome = true ↔
      ∃ p t, s = p ++ t ∧ a.min ≤ p.length ∧ (∀ m, a.max = some m → p.length ≤ m) ∧
        (∀ c ∈ p, a.cls.test c = true) ∧ (matchAtoms rest e t).isSome = true := by
  simp only [matchAtoms, List.findSome?_isSome_iff, mem_countsDown, Option.isSome_map']
  constructor
  · rintro ⟨k, ⟨hlo, hhi⟩, hrest⟩
    have hhi' : k ≤ a.max.getD s.length ∧ k ≤ runLength a.cls.test s := by
      have := hhi
      simp only [Nat.min_def] at this
      split at this <;> omega
    obtain ⟨hk, hall⟩ := (le_runLength_iff _ _ _).1 hhi'.2
    refine ⟨s.take k, s.drop k, (List.take_append_drop k s).symm, ?_, ?_, hall, hrest⟩
    · simp [List.length_take]; omega
    · intro m hm
      have := hhi'.1
      simp [hm] at this
      simp [List.length_take]; omega
  · rintro ⟨p, t, rfl, hmin, hmax, hall, hrest⟩
    refine ⟨p.length, ⟨hmin, ?_⟩, by simpa using hrest⟩
    have h1 : p.length ≤ a.max.getD (p ++ t).length := by
      cases hm : a.max with
      | none => simp
      | some m => simpa using hmax m hm
    have h2 : p.length ≤ runLength a.cls.test (p ++ t) :=
      (le_runLength_iff _ _ _).2 ⟨by simp, by simpa using hall⟩
    simp only [Nat.min_def]
    split <;> omega

theorem test_anchored (re : RegExp) (h : re.anchorStart = true) (s : List Char) :
    re.test s = (matchAtoms re.atoms re.anchorEnd s).isSome := by
  simp only [RegExp.test, RegExp.exec, h, if_true, List.drop_zero, List.findSome?_cons,
    List.findSome?_nil]
  cases matchAtoms re.atoms re.anchorEnd s <;> simp

theorem eq_singleton_of_lit {p : List Char} {d : Char} (h1 : 1 ≤ p.length) (h2 : p.length ≤ 1)
    (h3 : ∀ c ∈ p, (CharClass.lit d).test c = true) : p = [d] := by
  match p, h1, h2, h3 with
  | [c], _, _, h3 =>
    have := h3 c (by simp)
    simp [CharClass.test] at this
    simp [this]

theorem isValidPhone_iff (s : List Char) :
    isValidPhone s = true ↔
      ∃ area w mid last, s = '(' :: area ++ ')' :: w :: mid ++ '-' :: last ∧
        area.length = 2 ∧ (∀ c ∈ area, isDigit c = true) ∧ isSpace w = true ∧
        (mid.length = 4 ∨ mid.length = 5) ∧ (∀ c ∈ mid, isDigit c = true) ∧
        last.length = 4 ∧ (∀ c ∈ last, isDigit c = true) := by
  rw [isValidPhone, test_anchored _ rfl]
  simp only [phoneRegex, matchAtoms_cons_isSome, matchAtoms_nil_isSome]
  constructor
  · rintro ⟨p1, t1, rfl, h1a, h1b, h1c, p2, t2, rfl, h2a, h2b, h2c, p3, t3, rfl, h3a, h3b, h3c,
      p4, t4, rfl, h4a, h4b, h4c, p5, t5, rfl, h5a, h5b, h5c, p6, t6, rfl, h6a, h6b, h6c,
      p7, t7, rfl, h7a, h7b, h7c, h8⟩
    have e1 := eq_singleton_of_lit h1a (h1b 1 rfl) h1c
    have e3 := eq_singleton_of_lit h3a (h3b 1 rfl) h3c
    have e6 := eq_singleton_of_lit h6a (h6b 1 rfl) h6c
    have h8' : t7 = [] := by simpa using h8
    subst e1 e3 e6 h8'
    have l4 := h4b 1 rfl
    match p4, h4a, l4, h4c with
    | [w], _, _, h4c =>
      refine ⟨p2, w, p5, p7, by simp, ?_, h2c, ?_, ?_, h5c, ?_, h7c⟩
      · have := h2b 2 rfl; omega
      · simpa [CharClass.test] using h4c w (by simp)
      · have := h5b 5 rfl; omega
      · have := h7b 4 rfl; omega
  · rintro ⟨area, w, mid, last, rfl, ha, hda, hw, hm, hdm, hl, hdl⟩
    refine ⟨['('], area ++ ')' :: w :: mid ++ '-' :: last, by simp, by simp, by simp,
      by simp [CharClass.test], area, ')' :: w :: mid ++ '-' :: last, by simp, by omega,
      by simp; omega, hda, [')'], w :: mid ++ '-' :: last, by simp, by simp, by simp,
      by simp [CharClass.test], [w], mid ++ '-' :: last, by simp, by simp, by simp,
      by simpa [CharClass.test] using hw, mid, '-' :: last, by simp, by omega, by simp; omega,
      hdm, ['-'], last, by simp, by simp, by simp, by simp [CharClass.test], last, [],
      by simp, by omega, by simp; omega, hdl, by simp⟩

theorem specEmailShape_iff (s : List Char) :
    specEmailShape.test s = true ↔
      ∃ a b c, s = a ++ '@' :: b ++ '.' :: c ∧ a ≠ [] ∧ b ≠ [] ∧ c ≠ [] ∧
        (∀ x ∈ a, isSpace x = false) ∧ (∀ x ∈ b, isSpace x = false) ∧
        (∀ x ∈ c, isSpace x = false) := by
  rw [test_anchored _ rfl]
  simp only [specEmailShape, matchAtoms_cons_isSome, matchAtoms_nil_isSome]
  constructor
  · rintro ⟨p1, t1, rfl, h1a, -, h1c, p2, t2, rfl, h2a, h2b, h2c, p3, t3, rfl, h3a, -, h3c,
      p4, t4, rfl, h4a, h4b, h4c, p5, t5, rfl, h5a, -, h5c, h6⟩
    have e2 := eq_singleton_of_lit h2a (h2b 1 rfl) h2c
    have e4 := eq_singleton_of_lit h4a (h4b 1 rfl) h4c
    have h6' : t5 = [] := by simpa using h6
    subst e2 e4 h6'
    refine ⟨p1, p3, p5, by simp, ?_, ?_, ?_, ?_, ?_, ?_⟩
    · intro h; simp [h] at h1a
    · intro h; simp [h] at h3a
    · intro h; simp [h] at h5a
    · intro x hx; simpa [CharClass.test] using h1c x hx
    · intro x hx; simpa [CharClass.test] using h3c x hx
    · intro x hx; simpa [CharClass.test] using h5c x hx
  · rintro ⟨a, b, c, rfl, ha, hb, hc, hsa, hsb, hsc⟩
    refine ⟨a, '@' :: b ++ '.' :: c, by simp, List.length_pos.2 ha, by simp,
      fun x hx => by simp [CharClass.test, hsa x hx],
      ['@'], b ++ '.' :: c, by simp, by simp, by simp, by simp [CharClass.test],
      b, '.' :: c, by simp, List.length_pos.2 hb, by simp,
      fun x hx => by simp [CharClass.test, hsb x hx],
      ['.'], c, by simp, by simp, by simp, by simp [CharClass.test],
      c, [], by simp, List.length_pos.2 hc, by simp,
      fun x hx => by simp [CharClass.test, hsc x hx], by simp⟩

theorem isValidEmail_iff (s : List Char) :
    isValidEmail s = true ↔
      ∃ a b c, s = a ++ '@' :: b ++ '.' :: c ∧ a ≠ [] ∧ b ≠ [] ∧ c ≠ [] ∧
        (∀ x ∈ a, isSpace x = false ∧ x ≠ '@') ∧ (∀ x ∈ b, isSpace x = false ∧ x ≠ '@') ∧
        (∀ x ∈ c, isSpace x = false ∧ x ≠ '@') := by
  rw [isValidEmail, test_anchored _ rfl]
  simp only [emailRegex, matchAtoms_cons_isSome, matchAtoms_nil_isSome]
  constructor
  · rintro ⟨p1, t1, rfl, h1a, -, h1c, p2, t2, rfl, h2a, h2b, h2c, p3, t3, rfl, h3a, -, h3c,
      p4, t4, rfl, h4a, h4b, h4c, p5, t5, rfl, h5a, -, h5c, h6⟩
    have e2 := eq_singleton_of_lit h2a (h2b 1 rfl) h2c
    have e4 := eq_singleton_of_lit h4a (h4b 1 rfl) h4c
    have h6' : t5 = [] := by simpa using h6
    subst e2 e4 h6'
    refine ⟨p1, p3, p5, by simp, ?_, ?_, ?_, ?_, ?_, ?_⟩
    · intro h; simp [h] at h1a
    · intro h; simp [h] at h3a
    · intro h; simp [h] at h5a
    · intro x hx; simpa [CharClass.test] using h1c x hx
    · intro x hx; simpa [CharClass.test] using h3c x hx
    · intro x hx; simpa [CharClass.test] using h5c x hx
  · rintro ⟨a, b, c, rfl, ha, hb, hc, hsa, hsb, hsc⟩
    refine ⟨a, '@' :: b ++ '.' :: c, by simp, List.length_pos.2 ha, by simp,
      fun x hx => by simp [CharClass.test, hsa x hx],
      ['@'], b ++ '.' :: c, by simp, by simp, by simp, by simp [CharClass.test],
      b, '.' :: c, by simp, List.length_pos.2 hb, by simp,
      fun x hx => by simp [CharClass.test, hsb x hx],
      ['.'], c, by simp, by simp, by simp, by simp [CharClass.test],
      c, [], by simp, List.length_pos.2 hc, by simp,
      fun x hx => by simp [CharClass.test, hsc x hx], by simp⟩

theorem email_valid_of_one_at (s : List Char) (hshape : specEmailShape.test s = true)
    (hat : s.count '@' = 1) : isValidEmail s = true := by
  obtain ⟨a, b, c, rfl, ha, hb, hc, hsa, hsb, hsc⟩ := (specEmailShape_iff s).1 hshape
  have hcount : a.count '@' + (b.count '@' + c.count '@' ) = 0 := by
    have : ('.' == '@') = false := by decide
    simp [List.count_append, List.count_cons, this] at hat
    omega
  have hna : a.count '@' = 0 := by omega
  have hnb : b.count '@' = 0 := by omega
  have hnc : c.count '@' = 0 := by omega
  rw [List.count_eq_zero] at hna hnb hnc
  refine (isValidEmail_iff _).2 ⟨a, b, c, rfl, ha, hb, hc, ?_, ?_, ?_⟩
  · exact fun x hx => ⟨hsa x hx, fun h => hna (h ▸ hx)⟩
  · exact fun x hx => ⟨hsb x hx, fun h => hnb (h ▸ hx)⟩
  · exact fun x hx => ⟨hsc x hx, fun h => hnc (h ▸ hx)⟩

/-! ## Lemmas on the phone mask -/

theorem replaceAllClass_nonDigit (s : List Char) :
    replaceAllClass .nonDigit [] s = s.filter isDigit := by
  induction s with
  | nil => rfl
  | cons c cs ih =>
    simp only [replaceAllClass, CharClass.test, Bool.not_eq_true'] at ih ⊢
    by_cases h : isDigit c = true
    · simp [h, List.filter_cons, ih]
    · simp [h, List.filter_cons, ih]

/-- A group `(C{n})` matches exactly the next `n` characters when they are all in `C`. -/
theorem matchAtoms_fixed (cls : CharClass) (n : Nat) (rest : List Atom) (e : Bool)
    (s : List Char) (hlen : n ≤ s.length) (hall : ∀ c ∈ s.take n, cls.test c = true) :
    matchAtoms (⟨cls, n, some n, true⟩ :: rest) e s =
      (matchAtoms rest e (s.drop n)).map fun r => (s.take n :: r.1, r.2) := by
  have hrun : n ≤ runLength cls.test s := (le_runLength_iff _ _ _).2 ⟨hlen, hall⟩
  have hmin : Nat.min n (runLength cls.test s) = n := Nat.min_eq_left hrun
  simp only [matchAtoms, Option.getD_some, hmin, countsDown_self, List.findSome?_cons,
    List.findSome?_nil, if_true]
  cases matchAtoms rest e (List.drop n s) <;> rfl

theorem matchAtoms_isSome_length (atoms : List Atom) (e : Bool) (s : List Char)
    (h : (matchAtoms atoms e s).isSome = true) : minLength atoms ≤ s.length := by
  induction atoms generalizing s with
  | nil => simp [minLength]
  | cons a rest ih =>
    obtain ⟨p, t, rfl, hmin, -, -, hrest⟩ := (matchAtoms_cons_isSome a rest e _).1 h
    have := ih t hrest
    simp [minLength] at this ⊢
    omega

theorem exec_none_of_short (re : RegExp) (s : List Char) (h : s.length < minLength re.atoms) :
    re.exec s = none := by
  simp only [RegExp.exec, List.findSome?_eq_none_iff, Option.map_eq_none']
  intro i _
  cases hm : matchAtoms re.atoms re.anchorEnd (s.drop i) with
  | none => rfl
  | some r =>
    have := matchAtoms_isSome_length re.atoms re.anchorEnd (s.drop i) (by simp [hm])
    simp at this
    omega

theorem exec_at_zero (re : RegExp) (s : List Char) (r : List (List Char) × List Char)
    (h : matchAtoms re.atoms re.anchorEnd s = some r) : re.exec s = some (0, r.1, r.2) := by
  unfold RegExp.exec
  by_cases ha : re.anchorStart = true
  · simp [ha, h]
  · simp [ha, List.range_succ_eq_map, h]

theorem formatPhone_eq (s : List Char) :
    formatPhone s =
      if (s.filter isDigit).length ≤ 10 then
        replaceFirst mask10Regex maskTemplate (s.filter isDigit)
      else replaceFirst mask11Regex maskTemplate (s.filter isDigit) := by
  simp only [formatPhone, replaceAllClass_nonDigit]

theorem formatPhone_short (s : List Char) (h : (s.filter isDigit).length < 10) :
    formatPhone s = s.filter isDigit := by
  have hle : (s.filter isDigit).length ≤ 10 := by omega
  simp only [formatPhone_eq, hle, if_true, replaceFirst]
  rw [exec_none_of_short]
  simpa [minLength, mask10Regex] using h

theorem all_digit_filter (s : List Char) : ∀ c ∈ s.filter isDigit, isDigit c = true := by
  intro c hc
  exact (List.mem_filter.1 hc).2

theorem formatPhone_ten (s : List Char) (h : (s.filter isDigit).length = 10) :
    formatPhone s = '(' :: (s.filter isDigit).take 2 ++ ')' :: ' ' ::
      ((s.filter isDigit).drop 2).take 4 ++ '-' :: ((s.filter isDigit).drop 6).take 4 := by
  have hle : (s.filter isDigit).length ≤ 10 := by omega
  have hd := all_digit_filter s
  rw [formatPhone_eq]
  generalize s.filter isDigit = d at *
  have hm : matchAtoms mask10Regex.atoms mask10Regex.anchorEnd d =
      some ([d.take 2, (d.drop 2).take 4, (d.drop 6).take 4], d.drop 10) := by
    simp only [mask10Regex]
    rw [matchAtoms_fixed .digit _ _ _ _ (by omega) (fun c hc => hd c (List.mem_of_mem_take hc)),
      matchAtoms_fixed .digit _ _ _ _ (by simp; omega)
        (fun c hc => hd c (List.mem_of_mem_drop (List.mem_of_mem_take hc))),
      matchAtoms_fixed .digit _ _ _ _ (by simp; omega)
        (fun c hc => hd c (List.mem_of_mem_drop (List.mem_of_mem_drop (List.mem_of_mem_take hc))))]
    simp [matchAtoms]
  have hdrop : d.drop 10 = [] := List.drop_eq_nil_of_le (by omega)
  simp only [hle, if_true, replaceFirst, exec_at_zero _ _ _ hm]
  simp [expandTemplate, maskTemplate, hdrop]

theorem formatPhone_long (s : List Char) (h : 11 ≤ (s.filter isDigit).length) :
    formatPhone s = '(' :: (s.filter isDigit).take 2 ++ ')' :: ' ' ::
      ((s.filter isDigit).drop 2).take 5 ++ '-' :: ((s.filter isDigit).drop 7).take 4 ++
      (s.filter isDigit).drop 11 := by
  have hle : ¬ (s.filter isDigit).length ≤ 10 := by omega
  have hd := all_digit_filter s
  rw [formatPhone_eq]
  generalize s.filter isDigit = d at *
  have hm : matchAtoms mask11Regex.atoms mask11Regex.anchorEnd d =
      some ([d.take 2, (d.drop 2).take 5, (d.drop 7).take 4], d.drop 11) := by
    simp only [mask11Regex]
    rw [matchAtoms_fixed .digit _ _ _ _ (by omega) (fun c hc => hd c (List.mem_of_mem_take hc)),
      matchAtoms_fixed .digit _ _ _ _ (by simp; omega)
        (fun c hc => hd c (List.mem_of_mem_drop (List.mem_of_mem_take hc))),
      matchAtoms_fixed .digit _ _ _ _ (by simp; omega)
        (fun c hc => hd c (List.mem_of_mem_drop (List.mem_of_mem_drop (List.mem_of_mem_take hc))))]
    simp [matchAtoms]
  simp only [hle, if_false, replaceFirst, exec_at_zero _ _ _ hm]
  simp [expandTemplate, maskTemplate]

/-! ## The phone mask and the validators -/

/-- C1: when the digit characters of the input, read in order, are a sequence
`d` of exactly 11 digits, `formatPhone` returns `"(" + d[0..2) + ") " + d[2..7)
+ "-" + d[7..11)`; when they are exactly 10 digits it returns `"(" + d[0..2) +
") " + d[2..6) + "-" + d[6..10)`.  The non-digit characters are discarded: the
result is that of the digits alone.  `formatPhone("11987654321")` is
`"(11) 98765-4321"` and `formatPhone("1133334444")` is `"(11) 3333-4444"`. -/
theorem formatPhone_mask (s : List Char) :
    ((s.filter isDigit).length = 11 →
      formatPhone s = ['('] ++ slice (s.filter isDigit) 0 2 ++ [')', ' '] ++
        slice (s.filter isDigit) 2 7 ++ ['-'] ++ slice (s.filter isDigit) 7 11) ∧
    ((s.filter isDigit).length = 10 →
      formatPhone s = ['('] ++ slice (s.filter isDigit) 0 2 ++ [')', ' '] ++
        slice (s.filter isDigit) 2 6 ++ ['-'] ++ slice (s.filter isDigit) 6 10) ∧
    formatPhone s = formatPhone (s.filter isDigit) ∧
    formatPhone "11987654321".toList = "(11) 98765-4321".toList ∧
    formatPhone "1133334444".toList = "(11) 3333-4444".toList := by
  refine ⟨fun h => ?_, fun h => ?_, ?_, by decide, by decide⟩
  · have hdrop : (s.filter isDigit).drop 11 = [] := List.drop_eq_nil_of_le (by omega)
    rw [formatPhone_long s (by omega), hdrop]
    simp [slice]
  · rw [formatPhone_ten s h]
    simp [slice]
  · rw [formatPhone_eq, formatPhone_eq, List.filter_filter]
    simp

/-- Witness of C1 on inputs that carry separators besides their 11 and 10
digits. -/
theorem formatPhone_mask_witness :
    formatPhone "11 98765.4321".toList = "(11) 98765-4321".toList ∧
    formatPhone "+11 3333 4444".toList = "(11) 3333-4444".toList :=
  ⟨(formatPhone_mask "11 98765.4321".toList).1 (by decide),
   (formatPhone_mask "+11 3333 4444".toList).2.1 (by decide)⟩

/-- C2, as stated, fails: `a@@b.co` has the shape `^\S+@\S+\.\S+$` and is
rejected by `isValidEmail`. -/
theorem isValidEmail_shape_counterexample :
    specEmailShape.test "a@@b.co".toList = true ∧ isValidEmail "a@@b.co".toList = false := by
  decide

/-- C2, amended: every string of the shape `^\S+@\S+\.\S+$` that contains
exactly one `@` is accepted by `isValidEmail`; in particular `a@b.co` is. -/
theorem isValidEmail_of_shape (s : List Char) :
    (specEmailShape.test s = true → s.count '@' = 1 → isValidEmail s = true) ∧
    isValidEmail "a@b.co".toList = true :=
  ⟨email_valid_of_one_at s, by decide⟩

/-- Witness of the amended C2 at `user.name@example.com`. -/
theorem isValidEmail_of_shape_witness : isValidEmail "user.name@example.com".toList = true :=
  (isValidEmail_of_shape "user.name@example.com".toList).1 (by decide) (by decide)

/-- C4, as stated, fails: with a tab in place of the space the string is
accepted by `isValidPhone` although it does not have the national format. -/
theorem isValidPhone_tab_counterexample :
    ¬ (isValidPhone "(11)\t3333-4444".toList = true ↔
        specNationalFormat.test "(11)\t3333-4444".toList = true) := by
  decide

/-- C4, amended: `isValidPhone` accepts exactly the strings made of `(`, two
digits, `)`, one white-space character of the class `\s` (space, tab, line
break, no-break space, ...), four or five digits, `-` and four digits, with
nothing before or after. -/
theorem isValidPhone_iff_format (s : List Char) :
    isValidPhone s = true ↔
      ∃ area w mid last, s = ['('] ++ area ++ [')', w] ++ mid ++ ['-'] ++ last ∧
        area.length = 2 ∧ (∀ c ∈ area, isDigit c = true) ∧ isSpace w = true ∧
        (mid.length = 4 ∨ mid.length = 5) ∧ (∀ c ∈ mid, isDigit c = true) ∧
        last.length = 4 ∧ (∀ c ∈ last, isDigit c = true) := by
  simpa using isValidPhone_iff s

/-- C10: the masked value `formatPhone s` is accepted by `isValidPhone` exactly
when `s` has 10 or 11 digit characters; with fewer than 10 the masked value is
the bare digits, with more than 11 the surplus digits trail after the mask. -/
theorem isValidPhone_formatPhone (s : List Char) :
    (isValidPhone (formatPhone s) = true ↔
      ((s.filter isDigit).length = 10 ∨ (s.filter isDigit).length = 11)) ∧
    ((s.filter isDigit).length < 10 → formatPhone s = s.filter isDigit) ∧
    (11 < (s.filter isDigit).length →
      formatPhone s = ['('] ++ slice (s.filter isDigit) 0 2 ++ [')', ' '] ++
        slice (s.filter isDigit) 2 7 ++ ['-'] ++ slice (s.filter isDigit) 7 11 ++
        (s.filter isDigit).drop 11 ∧ (s.filter isDigit).drop 11 ≠ []) := by
  have hd := all_digit_filter s
  refine ⟨?_, formatPhone_short s, fun h => ⟨?_, ?_⟩⟩
  · constructor
    · intro hv
      by_contra hne
      rcases Nat.lt_or_ge (s.filter isDigit).length 10 with hlt | hge
      · rw [formatPhone_short s hlt] at hv
        obtain ⟨area, w, mid, last, heq, -⟩ := (isValidPhone_iff _).1 hv
        have : isDigit '(' = true := hd '(' (by rw [heq]; simp)
        exact absurd this (by decide)
      · have hlong : 11 ≤ (s.filter isDigit).length := by omega
        rw [formatPhone_long s hlong] at hv
        obtain ⟨area, w, mid, last, heq, ha, -, -, hm, -, hl, -⟩ := (isValidPhone_iff _).1 hv
        have hlen := congrArg List.length heq
        simp [List.length_take, List.length_drop] at hlen
        omega
    · rintro (h | h)
      · rw [formatPhone_ten s h]
        refine (isValidPhone_iff _).2 ⟨(s.filter isDigit).take 2, ' ',
          ((s.filter isDigit).drop 2).take 4, ((s.filter isDigit).drop 6).take 4, by simp,
          by simp [List.length_take]; omega, fun c hc => hd c (List.mem_of_mem_take hc),
          by decide, Or.inl (by simp [List.length_take]; omega),
          fun c hc => hd c (List.mem_of_mem_drop (List.mem_of_mem_take hc)),
          by simp [List.length_take]; omega,
          fun c hc => hd c (List.mem_of_mem_drop (List.mem_of_mem_take hc))⟩
      · have hdrop : (s.filter isDigit).drop 11 = [] := List.drop_eq_nil_of_le (by omega)
        rw [formatPhone_long s (by omega), hdrop]
        refine (isValidPhone_iff _).2 ⟨(s.filter isDigit).take 2, ' ',
          ((s.filter isDigit).drop 2).take 5, ((s.filter isDigit).drop 7).take 4, by simp,
          by simp [List.length_take]; omega, fun c hc => hd c (List.mem_of_mem_take hc),
          by decide, Or.inr (by simp [List.length_take]; omega),
          fun c hc => hd c (List.mem_of_mem_drop (List.mem_of_mem_take hc)),
          by simp [List.length_take]; omega,
          fun c hc => hd c (List.mem_of_mem_drop (List.mem_of_mem_take hc))⟩
  · rw [formatPhone_long s (by omega)]
    simp [slice]
  · intro h0
    have := congrArg List.length h0
    simp at this
    omega

/-- Witness of C10: nine digits stay bare, twelve digits keep their last digit
after the mask. -/
theorem isValidPhone_formatPhone_witness :
    formatPhone "11-9876-543".toList = "119876543".toList ∧
    formatPhone "119876543210".toList = "(11) 98765-43210".toList :=
  ⟨(isValidPhone_formatPhone "11-9876-543".toList).2.1 (by decide),
   by simpa [slice] using ((isValidPhone_formatPhone "119876543210".toList).2.2 (by decide)).1⟩

/-! ## Field validation -/

theorem mem_classListAdd (cl : List String) (token : String) :
    token ∈ classListAdd cl token := by
  unfold classListAdd
  split
  · next h => simpa using h
  · simp

/-- C3: for a field that carries the required marker and whose value is empty
after trimming, whatever its type and its earlier error decoration,
`validateField` returns false, marks the field (`error` class, `aria-invalid`)
and appends the required-field message as the newest message of the field's
container, after removing up to two earlier ones; with at most two earlier
messages it is the only message shown. -/
theorem validateField_required_empty (field : Field) (hreq : field.required = true)
    (hempty : trim field.value = []) :
    (validateField field).1 = false ∧
    (validateField field).2.errorMessages =
      field.errorMessages.drop 2 ++ ["Este campo é obrigatório."] ∧
    (validateField field).2.errorMessages.getLast? = some "Este campo é obrigatório." ∧
    "error" ∈ (validateField field).2.classList ∧
    (validateField field).2.ariaInvalid = some "true" ∧
    (field.errorMessages.length ≤ 2 →
      (validateField field).2.errorMessages = ["Este campo é obrigatório."]) := by
  have hv : validateField field =
      (false, showFieldError (clearFieldError field) requiredMessage) := by
    simp [validateField, hreq, hempty]
  rw [hv]
  refine ⟨rfl, ?_, ?_, ?_, rfl, ?_⟩
  · simp [showFieldError, clearFieldError, requiredMessage]
  · simp [showFieldError, clearFieldError, requiredMessage]
  · exact mem_classListAdd _ _
  · intro hlen
    have : field.errorMessages.drop 2 = [] := List.drop_eq_nil_of_le hlen
    simp [showFieldError, clearFieldError, requiredMessage, this]

/-- Witness of C3: a required email field holding only blanks, already marked
with an earlier email error. -/
theorem validateField_required_empty_witness :
    (validateField
      { name := "email", value := " \t ".toList, defaultValue := [], type := "email"
        required := true, classList := ["error"], ariaInvalid := some "true"
        errorMessages := ["Por favor, insira um email válido."] }).2.errorMessages =
      ["Este campo é obrigatório."] :=
  (validateField_required_empty
    { name := "email", value := " \t ".toList, defaultValue := [], type := "email"
      required := true, classList := ["error"], ariaInvalid := some "true"
      errorMessages := ["Por favor, insira um email válido."] } rfl (by decide)).2.2.2.2.2
    (by decide)

/-! ## The request client -/

theorem apiRequest_rejected (fetch : Request → FetchResult) (hostname endpoint : String)
    (options : RequestInit) (reason : String)
    (h : fetch (apiRequestCall hostname endpoint options) = .rejected reason) :
    apiRequest fetch hostname endpoint options = .error (.network reason) := by
  simp [apiRequest, h, awaitFetch, tryCatch, tryCatchThe, MonadExceptOf.tryCatch,
    Except.tryCatch, bind, Except.bind, throw, throwThe, MonadExceptOf.throw]

theorem apiRequest_not_ok (fetch : Request → FetchResult) (hostname endpoint : String)
    (options : RequestInit) (response : Response)
    (h : fetch (apiRequestCall hostname endpoint options) = .resolved response)
    (hok : response.ok = false) :
    apiRequest fetch hostname endpoint options = .error (.http response.status) := by
  simp [apiRequest, h, hok, awaitFetch, tryCatch, tryCatchThe, MonadExceptOf.tryCatch,
    Except.tryCatch, bind, Except.bind, throw, throwThe, MonadExceptOf.throw, pure, Except.pure]

theorem rastrearEntrega_eq (fetch : Request → FetchResult) (hostname codigo : String) :
    rastrearEntrega fetch hostname codigo =
      match apiRequest fetch hostname ("/api/rastrear/" ++ codigo) emptyOptions with
      | .ok data => .ok data
      | .error _ => .ok rastrearFallback := by
  unfold rastrearEntrega
  cases apiRequest fetch hostname ("/api/rastrear/" ++ codigo) emptyOptions <;>
    simp [tryCatch, tryCatchThe, MonadExceptOf.tryCatch, Except.tryCatch, bind, Except.bind,
      pure, Except.pure]

theorem enviarContato_eq (fetch : Request → FetchResult) (hostname : String)
    (formData : FormData) :
    enviarContato fetch hostname formData =
      match apiRequest fetch hostname "/contato" (contatoOptions formData) with
      | .ok data => .ok data
      | .error _ => .ok contatoFallback := by
  unfold enviarContato
  cases apiRequest fetch hostname "/contato" (contatoOptions formData) <;>
    simp [tryCatch, tryCatchThe, MonadExceptOf.tryCatch, Except.tryCatch, bind, Except.bind,
      pure, Except.pure]

/-- C5: `rastrearEntrega` and `enviarContato` never propagate an error.  For
every behaviour of the network both return normally; when `apiRequest` returns
a body they return that body, and when it throws (in particular on a transport
failure or a non-success status) `rastrearEntrega` returns
`{encontrado: false, erro: 'Erro ao consultar rastreamento. Tente novamente.'}`
and `enviarContato` returns
`{success: false, message: 'Erro ao enviar mensagem. Tente novamente.'}`. -/
theorem wrappers_never_throw (fetch : Request → FetchResult) (hostname codigo : String)
    (formData : FormData) :
    (∃ v, rastrearEntrega fetch hostname codigo = .ok v) ∧
    (∃ v, enviarContato fetch hostname formData = .ok v) ∧
    (∀ data, apiRequest fetch hostname ("/api/rastrear/" ++ codigo) emptyOptions = .ok data →
      rastrearEntrega fetch hostname codigo = .ok data) ∧
    (∀ data, apiRequest fetch hostname "/contato" (contatoOptions formData) = .ok data →
      enviarContato fetch hostname formData = .ok data) ∧
    (∀ err, apiRequest fetch hostname ("/api/rastrear/" ++ codigo) emptyOptions = .error err →
      rastrearEntrega fetch hostname codigo = .ok (.obj [("encontrado", .bool false),
        ("erro", .str "Erro ao consultar rastreamento. Tente novamente.")])) ∧
    (∀ err, apiRequest fetch hostname "/contato" (contatoOptions formData) = .error err →
      enviarContato fetch hostname formData = .ok (.obj [("success", .bool false),
        ("message", .str "Erro ao enviar mensagem. Tente novamente.")])) ∧
    (∀ reason,
      fetch (apiRequestCall hostname ("/api/rastrear/" ++ codigo) emptyOptions) =
        .rejected reason →
      rastrearEntrega fetch hostname codigo = .ok rastrearFallback) ∧
    (∀ response,
      fetch (apiRequestCall hostname ("/api/rastrear/" ++ codigo) emptyOptions) =
        .resolved response → response.ok = false →
      rastrearEntrega fetch hostname codigo = .ok rastrearFallback) ∧
    (∀ reason,
      fetch (apiRequestCall hostname "/contato" (contatoOptions formData)) = .rejected reason →
      enviarContato fetch hostname formData = .ok contatoFallback) ∧
    (∀ response,
      fetch (apiRequestCall hostname "/contato" (contatoOptions formData)) =
        .resolved response → response.ok = false →
      enviarContato fetch hostname formData = .ok contatoFallback) := by
  refine ⟨?_, ?_, ?_, ?_, ?_, ?_, ?_, ?_, ?_, ?_⟩
  · rw [rastrearEntrega_eq]
    cases apiRequest fetch hostname ("/api/rastrear/" ++ codigo) emptyOptions <;> simp
  · rw [enviarContato_eq]
    cases apiRequest fetch hostname "/contato" (contatoOptions formData) <;> simp
  · intro data h
    rw [rastrearEntrega_eq, h]
  · intro data h
    rw [enviarContato_eq, h]
  · intro err h
    rw [rastrearEntrega_eq, h]
    rfl
  · intro err h
    rw [enviarContato_eq, h]
    rfl
  · intro reason h
    rw [rastrearEntrega_eq, apiRequest_rejected _ _ _ _ _ h]
  · intro response h hok
    rw [rastrearEntrega_eq, apiRequest_not_ok _ _ _ _ _ h hok]
  · intro reason h
    rw [enviarContato_eq, apiRequest_rejected _ _ _ _ _ h]
  · intro response h hok
    rw [enviarContato_eq, apiRequest_not_ok _ _ _ _ _ h hok]

/-- Witness of C5: a network that is offline, and a backend answering 500. -/
theorem wrappers_never_throw_witness :
    rastrearEntrega (fun _ => .rejected "offline") "localhost" "EI123" = .ok rastrearFallback ∧
    enviarContato (fun _ => .resolved { jsonResponse .null with ok := false, status := 500 })
      "localhost" [("nome", "Ana".toList)] = .ok contatoFallback :=
  ⟨(wrappers_never_throw (fun _ => .rejected "offline") "localhost" "EI123"
      []).2.2.2.2.2.2.1 "offline" rfl,
   (wrappers_never_throw (fun _ => .resolved { jsonResponse .null with ok := false, status := 500 })
      "localhost" "" [("nome", "Ana".toList)]).2.2.2.2.2.2.2.2.2
      { jsonResponse .null with ok := false, status := 500 } rfl rfl⟩

/-! ## Header merging -/

theorem objGet_objSet {α : Type} (o : List (String × α)) (k k' : String) (v : α) :
    objGet (objSet o k v) k' = if k = k' then some v else objGet o k' := by
  induction o with
  | nil => simp [objSet, objGet]
  | cons kv rest ih =>
    obtain ⟨k0, v0⟩ := kv
    by_cases h0 : k0 = k
    · subst h0
      by_cases h1 : k0 = k' <;> simp [objSet, objGet, h1]
    · by_cases h1 : k0 = k'
      · subst h1
        have : ¬ k = k0 := fun h => h0 h.symm
        simp [objSet, objGet, h0, this]
      · simp [objSet, objGet, h0, h1, ih]

theorem objGet_objSpread_of_not_mem {α : Type} (src target : List (String × α)) (k : String)
    (h : k ∉ src.map Prod.fst) : objGet (objSpread target src) k = objGet target k := by
  induction src generalizing target with
  | nil => rfl
  | cons kv rest ih =>
    simp only [List.map_cons, List.mem_cons, not_or] at h
    have hne : ¬ kv.1 = k := fun e => h.1 e.symm
    simp only [objSpread, List.foldl_cons] at ih ⊢
    rw [ih _ h.2, objGet_objSet, if_neg hne]

theorem objGet_eq_none_iff {α : Type} (o : List (String × α)) (k : String) :
    objGet o k = none ↔ k ∉ o.map Prod.fst := by
  induction o with
  | nil => simp [objGet]
  | cons kv rest ih =>
    obtain ⟨k0, v0⟩ := kv
    by_cases h0 : k0 = k
    · simp [objGet, h0]
    · have : ¬ k = k0 := fun h => h0 h.symm
      simp [objGet, h0, ih, this]

theorem objGet_objSpread_of_get {α : Type} (src target : List (String × α)) (k : String) (v : α)
    (hnodup : (src.map Prod.fst).Nodup) (h : objGet src k = some v) :
    objGet (objSpread target src) k = some v := by
  induction src generalizing target with
  | nil => simp [objGet] at h
  | cons kv rest ih =>
    obtain ⟨k0, v0⟩ := kv
    simp only [List.map_cons, List.nodup_cons] at hnodup
    simp only [objSpread, List.foldl_cons] at ih ⊢
    by_cases h0 : k0 = k
    · subst h0
      simp only [objGet, if_true, Option.some.injEq] at h
      subst h
      have := objGet_objSpread_of_not_mem rest (objSet target k0 v0) k0 hnodup.1
      simp only [objSpread] at this
      rw [this, objGet_objSet, if_pos rfl]
    · simp only [objGet, if_neg h0] at h
      exact ih _ hnodup.2 h

/-- C6, as stated, fails: a caller-supplied `content-type` does not replace the
default `Content-Type`; the merged mapping holds both entries. -/
theorem mergeConfig_case_counterexample :
    (mergeConfig { method := none, headers := some [("content-type", "text/plain")],
                   body := none }).headers =
      some [("Content-Type", "application/json"), ("Accept", "application/json"),
            ("content-type", "text/plain")] := by
  decide

/-- C6, amended: for every options value (a plain object, so without repeated
keys) the merged header mapping has an entry `Content-Type` and an entry
`Accept`; every header the caller supplies is in it with the caller's value,
and every default header whose key, compared exactly (case-sensitively), the
caller does not supply keeps the default `application/json`. -/
theorem mergeConfig_headers (options : RequestInit)
    (hnodup : ((options.headers.getD []).map Prod.fst).Nodup) :
    ∃ merged, (mergeConfig options).headers = some merged ∧
      (objGet merged "Content-Type").isSome = true ∧
      (objGet merged "Accept").isSome = true ∧
      (∀ k v, objGet (options.headers.getD []) k = some v → objGet merged k = some v) ∧
      (∀ k, (k = "Content-Type" ∨ k = "Accept") → objGet (options.headers.getD []) k = none →
        objGet merged k = some "application/json") := by
  refine ⟨_, rfl, ?_, ?_, ?_, ?_⟩
  · cases h : objGet (options.headers.getD []) "Content-Type" with
    | some v => rw [objGet_objSpread_of_get _ _ _ _ hnodup h]; rfl
    | none =>
      rw [objGet_objSpread_of_not_mem _ _ _ ((objGet_eq_none_iff _ _).1 h)]
      decide
  · cases h : objGet (options.headers.getD []) "Accept" with
    | some v => rw [objGet_objSpread_of_get _ _ _ _ hnodup h]; rfl
    | none =>
      rw [objGet_objSpread_of_not_mem _ _ _ ((objGet_eq_none_iff _ _).1 h)]
      decide
  · intro k v h
    exact objGet_objSpread_of_get _ _ _ _ hnodup h
  · rintro k (rfl | rfl) h
    · rw [objGet_objSpread_of_not_mem _ _ _ ((objGet_eq_none_iff _ _).1 h)]
      decide
    · rw [objGet_objSpread_of_not_mem _ _ _ ((objGet_eq_none_iff _ _).1 h)]
      decide

/-- Witness of the amended C6: the caller overrides `Accept` and adds a header. -/
theorem mergeConfig_headers_witness :
    ∃ merged,
      (mergeConfig { method := some "POST"
                     headers := some [("Accept", "text/html"), ("X-Trace", "1")]
                     body := none }).headers = some merged ∧
      (objGet merged "Content-Type").isSome = true ∧
      (objGet merged "Accept").isSome = true ∧
      (∀ k v, objGet [("Accept", "text/html"), ("X-Trace", "1")] k = some v →
        objGet merged k = some v) ∧
      (∀ k, (k = "Content-Type" ∨ k = "Accept") →
        objGet [("Accept", "text/html"), ("X-Trace", "1")] k = none →
        objGet merged k = some "application/json") :=
  mergeConfig_headers
    { method := some "POST", headers := some [("Accept", "text/html"), ("X-Trace", "1")]
      body := none } (by decide)

/-! ## The contact form -/

/-- C7, as stated, fails: a submit button labelled `Enviar` does not get its
label back once the request has settled. -/
theorem contactSettle_label_counterexample :
    ((contactSettle (.resolved (jsonResponse (.obj [("success", .bool true)])))
        (submitContactForm ⟨contactPage "Ana".toList "Enviar", true, []⟩).page).form.submitButton.map
      fun b => b.textContent) ≠
    ((contactPage "Ana".toList "Enviar").form.submitButton.map fun b => b.textContent) := by
  decide

/-- C7, amended: for every contact form with a submit control, once the request
started by `submitContactForm` settles in any way, the submit control is
enabled again and its label is the fixed text `Enviar Mensagem`. -/
theorem contactSettle_button (e : SubmitEvent) (result : FetchResult) (b : Button)
    (hbutton : e.page.form.submitButton = some b) :
    (contactSettle result (submitContactForm e).page).form.submitButton =
      some { disabled := false, textContent := "Enviar Mensagem" } := by
  have hstart : (submitContactForm e).page.form.submitButton = some ⟨true, "Enviando..."⟩ := by
    simp [submitContactForm, hbutton]
  generalize (submitContactForm e).page = page at hstart
  have hfin : ∀ p : Page, p.form.submitButton = some ⟨true, "Enviando..."⟩ →
      (contactFinally p).form.submitButton = some ⟨false, "Enviar Mensagem"⟩ := by
    intro p hp
    simp [contactFinally, hp]
  have hcatch : (contactCatch page).form.submitButton = some ⟨true, "Enviando..."⟩ := by
    simpa [contactCatch, showFormError] using hstart
  have hthen : ∀ data p, contactThen data page = .ok p →
      p.form.submitButton = some ⟨true, "Enviando..."⟩ := by
    intro data p hp
    unfold contactThen at hp
    cases h1 : data.getProp "success" with
    | error err => simp [h1, bind, Except.bind] at hp
    | ok success =>
      by_cases ht : success.truthy = true
      · simp [h1, bind, Except.bind, ht, pure, Except.pure] at hp
        subst hp
        simpa [showSuccessMessage, formReset] using hstart
      · cases h2 : data.getProp "message" with
        | error err => simp [h1, h2, bind, Except.bind, ht] at hp
        | ok message =>
          simp [h1, h2, bind, Except.bind, ht, pure, Except.pure] at hp
          subst hp
          simpa [showFormError] using hstart
  unfold contactSettle
  cases result with
  | rejected reason => exact hfin _ hcatch
  | resolved response =>
    cases hj : response.json with
    | error err => simpa [hj] using hfin _ hcatch
    | ok data =>
      cases hc : contactThen data page with
      | error err => simpa [hj, hc] using hfin _ hcatch
      | ok p => simpa [hj, hc] using hfin _ (hthen data p hc)

/-- Witness of the amended C7: a transport failure on a form whose button reads
`Enviar`. -/
theorem contactSettle_button_witness :
    (contactSettle (.rejected "offline")
        (submitContactForm ⟨contactPage "Ana".toList "Enviar", true, []⟩).page).form.submitButton =
      some { disabled := false, textContent := "Enviar Mensagem" } :=
  contactSettle_button ⟨contactPage "Ana".toList "Enviar", true, []⟩ (.rejected "offline")
    ⟨false, "Enviar"⟩ rfl

/-- C8 on the code: a lookup the backend answers with `{encontrado: false}` and
a lookup that fails in transport leave the same page; on a page with a result
area both render the "not found" markup. -/
theorem trackingSubmit_conflates (toStr : JSValue → String) (hostname reason : String)
    (page : TrackingPage) :
    trackingSubmit toStr
        (fun _ => .resolved (jsonResponse (.obj [("encontrado", .bool false)]))) hostname page =
      trackingSubmit toStr (fun _ => .rejected reason) hostname page ∧
    (trackingSubmit toStr
        (fun _ => .resolved (jsonResponse (.obj [("encontrado", .bool false)]))) hostname
        (trackingPage "EI123".toList "")).resultado = some notFoundMarkup ∧
    (trackingSubmit toStr (fun _ => .rejected reason) hostname
        (trackingPage "EI123".toList "")).resultado = some notFoundMarkup := by
  have h1 : ∀ codigo, rastrearEntrega
      (fun _ => .resolved (jsonResponse (.obj [("encontrado", .bool false)]))) hostname codigo =
      .ok (.obj [("encontrado", .bool false)]) := by
    intro codigo
    rw [rastrearEntrega_eq]
    rfl
  have h2 : ∀ codigo, rastrearEntrega (fun _ => .rejected reason) hostname codigo =
      .ok rastrearFallback := by
    intro codigo
    rw [rastrearEntrega_eq, apiRequest_rejected _ _ _ _ reason rfl]
  have h3 : renderTracking toStr (.obj [("encontrado", .bool false)]) = .ok notFoundMarkup := rfl
  have h4 : renderTracking toStr rastrearFallback = .ok notFoundMarkup := rfl
  refine ⟨?_, ?_, ?_⟩
  · simp only [trackingSubmit, h1, h2, h3, h4]
  · simp only [trackingSubmit, h1, h3]
    rfl
  · simp only [trackingSubmit, h2, h4]
    rfl

theorem validateField_snd_attrs (f : Field) :
    (validateField f).2.value = f.value ∧ (validateField f).2.type = f.type ∧
    (validateField f).2.required = f.required := by
  unfold validateField
  simp only []
  split
  · simp [showFieldError, clearFieldError]
  · split
    · split <;> simp [showFieldError, clearFieldError]
    · split <;> simp [showFieldError, clearFieldError]
    · simp [clearFieldError]

theorem validateField_fst_congr (f g : Field) (hv : f.value = g.value) (ht : f.type = g.type)
    (hr : f.required = g.required) : (validateField f).1 = (validateField g).1 := by
  unfold validateField
  simp only [hv, ht, hr]
  split
  · rfl
  · split
    · split <;> rfl
    · split <;> rfl
    · rfl

theorem validateField_twice (f : Field) :
    (validateField (validateField f).2).1 = (validateField f).1 := by
  obtain ⟨hv, ht, hr⟩ := validateField_snd_attrs f
  exact validateField_fst_congr _ _ hv ht hr

theorem validateFields_false (fs : List Field) : (validateFields fs false).1 = false := by
  induction fs with
  | nil => rfl
  | cons f rest ih =>
    by_cases hreq : f.required = true
    · simp only [validateFields, hreq, if_true]
      cases (validateField f).1 <;> simpa using ih
    · simpa [validateFields, hreq] using ih

theorem validateFields_twice (fs : List Field) :
    (validateFields (validateFields fs true).2 true).1 = (validateFields fs true).1 := by
  induction fs with
  | nil => rfl
  | cons f rest ih =>
    by_cases hreq : f.required = true
    · have hreq' : (validateField f).2.required = true := by
        rw [(validateField_snd_attrs f).2.2, hreq]
      simp only [validateFields, hreq, hreq', if_true, validateField_twice]
      cases (validateField f).1
      · simp [validateFields_false]
      · simpa using ih
    · simpa [validateFields, hreq] using ih

theorem validateForm_twice (form : Form) :
    (validateForm (validateForm form).2).1 = (validateForm form).1 := by
  simp only [validateForm]
  exact validateFields_twice form.fields


theorem formValidationSubmit_form (e : SubmitEvent) :
    (formValidationSubmit e).page.form = (validateForm e.page.form).2 ∧
    (formValidationSubmit e).requests = e.requests := by
  unfold formValidationSubmit
  simp only []
  split <;> simp [showFormError]

theorem requests_contactFormSubmit_invalid (e : SubmitEvent)
    (h : (validateForm e.page.form).1 = false) :
    (contactFormSubmit e).requests = e.requests := by
  simp [contactFormSubmit, h]

theorem requests_contactFormSubmit_valid (e : SubmitEvent) (b : Button)
    (h : (validateForm e.page.form).1 = true)
    (hb : (validateForm e.page.form).2.submitButton = some b) :
    ∃ r, (contactFormSubmit e).requests = e.requests ++ [r] ∧ r.config.method = some "POST" := by
  simp [contactFormSubmit, h, submitContactForm, hb]

theorem dispatchSubmit_counts (hostname : String) (page : Page) :
    ((validateForm page.form).1 = false → postCount (dispatchSubmit hostname page) = 1) ∧
    ((validateForm page.form).1 = true → page.form.submitButton ≠ none →
      postCount (dispatchSubmit hostname page) = 2) := by
  have h1 := formValidationSubmit_form ⟨page, false, []⟩
  constructor
  · intro hv
    have hv' : (validateForm (formValidationSubmit ⟨page, false, []⟩).page.form).1 = false := by
      rw [h1.1, validateForm_twice]; exact hv
    have h2 := requests_contactFormSubmit_invalid _ hv'
    simp [postCount, dispatchSubmit, apiContactSubmit, h2, h1.2, apiRequestCall, mergeConfig,
      contatoOptions]
  · intro hv hb
    have hv' : (validateForm (formValidationSubmit ⟨page, false, []⟩).page.form).1 = true := by
      rw [h1.1, validateForm_twice]; exact hv
    obtain ⟨b, hb'⟩ := Option.ne_none_iff_exists'.1 hb
    have hb2 : (validateForm (formValidationSubmit ⟨page, false, []⟩).page.form).2.submitButton
        = some b := by
      rw [h1.1]; simpa [validateForm] using hb'
    obtain ⟨r, hr, hm⟩ := requests_contactFormSubmit_valid _ b hv' hb2
    simp [postCount, dispatchSubmit, apiContactSubmit, hr, h1.2, apiRequestCall, mergeConfig,
      contatoOptions, hm, List.filter_cons]

/-- C9 on the code: in every state of the contact form in which `validateForm`
fails, a submit event still issues one POST, sent by the listener of api.js
(the two listeners of main.js send nothing); when validation passes and the form
has a submit button, two POSTs are issued, one by main.js and one by api.js.
The default submission is suppressed in every case. -/
theorem dispatchSubmit_posts (hostname : String) (page : Page) :
    ((validateForm page.form).1 = false →
      postCount (dispatchSubmit hostname page) = 1 ∧
      (contactFormSubmit (formValidationSubmit ⟨page, false, []⟩)).requests = []) ∧
    ((validateForm page.form).1 = true → page.form.submitButton ≠ none →
      postCount (dispatchSubmit hostname page) = 2) ∧
    (dispatchSubmit hostname page).defaultPrevented = true ∧
    postCount (dispatchSubmitApiFirst "localhost" (contactPage [] "Enviar Mensagem")) = 1 ∧
    postCount (dispatchSubmitApiFirst "localhost"
      (contactPage "Ana".toList "Enviar Mensagem")) = 2 := by
  refine ⟨fun hv => ⟨(dispatchSubmit_counts hostname page).1 hv, ?_⟩,
    (dispatchSubmit_counts hostname page).2, rfl, by decide, by decide⟩
  have h1 := formValidationSubmit_form ⟨page, false, []⟩
  have hv2 : (validateForm (formValidationSubmit ⟨page, false, []⟩).page.form).1 = false := by
    rw [h1.1, validateForm_twice]; exact hv
  rw [requests_contactFormSubmit_invalid _ hv2, h1.2]

/-- Witness of C9 on the code: an empty required field, and a filled one. -/
theorem dispatchSubmit_posts_witness :
    postCount (dispatchSubmit "localhost" (contactPage [] "Enviar Mensagem")) = 1 ∧
    postCount (dispatchSubmit "localhost" (contactPage "Ana".toList "Enviar Mensagem")) = 2 :=
  ⟨((dispatchSubmit_posts "localhost" (contactPage [] "Enviar Mensagem")).1 (by decide)).1,
   (dispatchSubmit_posts "localhost" (contactPage "Ana".toList "Enviar Mensagem")).2.1
     (by decide) (by simp [contactPage])⟩

end ExpressoItaporanga
